import Mathlib

/-!
Verification development for the spacelift-ext browser extension.

The repository consists of four JavaScript files:
  - content_script.js : the main drag-select overlay (Selector Overlay);
  - content.js : a minimal alternate overlay followed by offscreen.js
    (the Cropper/Clipboard Worker);
  - an unnamed file holding three background-script variants (the
    Coordinator): background.js v1, a minimal areaSelected listener, and
    background.js v2 (runtime.getContexts variant);
  - an unnamed popup script (not relevant to the claims).

Each definition below is a shallow embedding of a specific function of the
source, with the file and line range recorded in its doc comment.  Numeric
page/device coordinates are embedded as rationals; JavaScript values that
may be absent or of the wrong dynamic type are embedded as Option values;
asynchronous platform calls (tab capture, message send, image decode,
clipboard write) are embedded as explicit environment outcomes passed to
the embedded control flow.
-/

/-- Rectangle with numeric fields, used for page and device coordinates. -/
structure RectQ where
  x : ℚ
  y : ℚ
  width : ℚ
  height : ℚ
deriving DecidableEq

/-- A chrome.notifications.create call: title and message shown to the user. -/
structure Notification where
  title : String
  message : String
deriving DecidableEq

/-- The OperationResult value passed to sendResponse: success flag plus
optional error string. -/
structure OperationResult where
  success : Bool
  error : Option String
deriving DecidableEq

/-- JavaScript truthiness of an optional string: undefined and the empty
string are falsy. -/
def falsyStr : Option String → Bool
  | none => true
  | some s => s = ""

/-- JavaScript a || d for an optional string a and default d: the default
is taken when a is undefined or the empty string. -/
def jsOrDefault (o : Option String) (d : String) : String :=
  match o with
  | some s => if s = "" then d else s
  | none => d

/-- JavaScript Math.round for a rational: floor of q + 1/2 (halves round
toward positive infinity, as in JavaScript). -/
def jsRound (q : ℚ) : ℤ := ⌊q + 1 / 2⌋

/-- JavaScript String.prototype.startsWith: the character list of p is a
prefix of the character list of s (embedded over character lists so that
it evaluates by kernel reduction). -/
def strStartsWith (s p : String) : Bool := p.data.isPrefixOf s.data

namespace Background

/-- The reply object the background script receives back from the
offscreen document: a success flag and an optional error string. -/
structure WorkerReply where
  success : Bool
  error : Option String
deriving DecidableEq

/-- Outcome of the awaited chrome.tabs.captureVisibleTab call, as observed
by the background script (unnamed background file, v1 lines 119-124):
either the await itself rejects with a message, or it completes with the
value of chrome.runtime.lastError and the delivered dataUrl. -/
inductive CaptureEnv
  | rejectedCall (msg : String)
  | completed (lastErr : Option String) (dataUrl : Option String)
deriving DecidableEq

/-- Outcome of the awaited chrome.runtime.sendMessage call to the
offscreen document (v1 lines 127-136): either the await rejects, or it
completes with the value of chrome.runtime.lastError and the reply. -/
inductive SendEnv
  | rejectedCall (msg : String)
  | completed (lastErr : Option String) (resp : Option WorkerReply)
deriving DecidableEq

/-- Accumulated observable effects of one run of the captureArea handler:
the list of sendResponse calls and the list of notifications created. -/
structure FlowResult where
  responses : List OperationResult
  notifications : List Notification
deriving DecidableEq

/-- The catch block of the captureArea handler (v1 lines 156-164): one
Screenshot Error notification and one failure response, with the thrown
message defaulted through JavaScript truthiness. -/
def catchPath (e : String) : FlowResult :=
  let m := if e = "" then "An unexpected error occurred." else e
  { responses := [⟨false, some ("Background: " ++ m)⟩]
  , notifications := [⟨"Screenshot Error", m⟩] }

/-- The worker-reported-failure branch of the captureArea handler (v1
lines 146-154): one Screenshot Failed notification and one failure
response carrying the computed error message. -/
def failPath (m : String) : FlowResult :=
  { responses := [⟨false, some m⟩]
  , notifications := [⟨"Screenshot Failed", m⟩] }

/-- Embedding of the captureArea branch of the background message listener
(unnamed background file, v1 lines 114-165; v2 lines 371-422 is
identical), for a request whose sender has a tab.  The three environment
parameters are the outcomes of the setup, capture and send suspension
points. -/
def captureAreaFlow (su : Except String Unit) (cap : CaptureEnv)
    (snd : SendEnv) : FlowResult :=
  match su with
  | Except.error e => catchPath e
  | Except.ok _ =>
    match cap with
    | CaptureEnv.rejectedCall m => catchPath m
    | CaptureEnv.completed lastE du =>
      if lastE.isSome || falsyStr du then
        catchPath ("Failed to capture tab: " ++
          jsOrDefault lastE "No dataUrl received")
      else
        match snd with
        | SendEnv.rejectedCall m => catchPath m
        | SendEnv.completed lastE2 resp =>
          match lastE2 with
          | some m => catchPath ("Error messaging offscreen: " ++ m)
          | none =>
            match resp with
            | some r =>
              if r.success then
                { responses := [⟨true, none⟩]
                , notifications :=
                    [⟨"Screenshot Copied!",
                      "The selected area has been copied to your clipboard."⟩] }
              else
                failPath (jsOrDefault r.error
                  "Unknown error from screenshot processing service.")
            | none =>
              failPath "Unknown error from screenshot processing service."

/-- Embedding of the whole background onMessage listener (v1 lines
104-172): unhandled actions produce no response and no notification; a
captureArea request without a sender tab is answered synchronously with an
internal error and no notification. -/
def backgroundOnMessage (action : String) (hasTab : Bool)
    (su : Except String Unit) (cap : CaptureEnv) (snd : SendEnv) :
    FlowResult :=
  if action = "captureArea" then
    if hasTab then captureAreaFlow su cap snd
    else
      { responses :=
          [⟨false, some "Background: Internal error - missing tab context."⟩]
      , notifications := [] }
  else { responses := [], notifications := [] }

/-- Observable effects of the minimal areaSelected background variant
(unnamed background file, lines 174-183): it sends no response and creates
no notification on any path; on full success the clipboard is written. -/
structure MiniFlowResult where
  responses : List OperationResult
  notifications : List Notification
  clipboardWritten : Bool
deriving DecidableEq

/-- Embedding of the minimal areaSelected listener (unnamed background
file, lines 174-183): captures the tab, crops, removes the background via
a remote API (which may fail) and writes the clipboard (which may fail).
No sendResponse callback exists and no notification is ever created;
failures surface only as unhandled rejections. -/
def areaSelectedListener (msgType : String) (removeBgOk clipOk : Bool) :
    MiniFlowResult :=
  if msgType = "areaSelected" then
    if removeBgOk then
      if clipOk then ⟨[], [], true⟩ else ⟨[], [], false⟩
    else ⟨[], [], false⟩
  else ⟨[], [], false⟩

/-- The source rectangle and canvas size computed by the minimal
background variant cropImage (unnamed background file, lines 185-202):
the canvas is rect.width by rect.height and the drawImage source
rectangle is the page rectangle scaled by the device pixel ratio. -/
structure MiniCrop where
  canvasWidth : ℚ
  canvasHeight : ℚ
  srcX : ℚ
  srcY : ℚ
  srcW : ℚ
  srcH : ℚ
deriving DecidableEq

/-- Embedding of the geometry of the minimal-variant cropImage (unnamed
background file, lines 185-202). -/
def cropImageMini (rect : RectQ) (dpr : ℚ) : MiniCrop :=
  { canvasWidth := rect.width
  , canvasHeight := rect.height
  , srcX := rect.x * dpr
  , srcY := rect.y * dpr
  , srcW := rect.width * dpr
  , srcH := rect.height * dpr }

/-- State of the chrome.offscreen platform as seen by the background
script: whether the API object is present and whether an offscreen
document currently exists. -/
structure BgEnv where
  offscreenAvailable : Bool
  doc : Bool
deriving DecidableEq

/-- Embedding of hasOffscreenDocument (v1 lines 7-17; v2 lines 233-245 is
behaviourally the same): false when the API is unavailable, otherwise
whether an offscreen document context exists. -/
def hasOffscreenDocument (s : BgEnv) : Bool :=
  s.offscreenAvailable && s.doc

/-- Result of one call to closeOffscreenDocument: the platform state
afterwards, whether chrome.offscreen.closeDocument was actually called,
and whether the call raised an error that escaped the function (the
source catches and swallows every closeDocument error). -/
structure CloseResult where
  state : BgEnv
  closeDocCalled : Bool
  threw : Bool
deriving DecidableEq

/-- Embedding of closeOffscreenDocument (v1 lines 20-32; v2 lines 247-270
has the same guarded-close-inside-try structure): a guard for a missing
API, a hasOffscreenDocument check, and a closeDocument call whose errors
are caught and logged. -/
def closeOffscreenDocument (s : BgEnv) : CloseResult :=
  if s.offscreenAvailable = false then ⟨s, false, false⟩
  else if hasOffscreenDocument s then
    ⟨⟨s.offscreenAvailable, false⟩, true, false⟩
  else ⟨s, false, false⟩

/-- Model of the chrome.offscreen.createDocument platform call: the
platform forbids more than one live offscreen document at a time and
rejects if one exists; otherwise a document is created. -/
def createDocument (s : BgEnv) : Except String BgEnv :=
  if s.doc then
    Except.error "Only a single offscreen document may be created."
  else Except.ok ⟨s.offscreenAvailable, true⟩

end Background

namespace Overlay

/-- The captureArea message the main overlay sends to the background
script (content_script.js lines 89-98): action string, device-pixel
coordinates, and the devicePixelRatio field carried inside coords. -/
structure CaptureAreaMessage where
  action : String
  coords : RectQ
  dprField : ℚ
deriving DecidableEq

/-- Result of one mouseup on the main overlay: the message sent via
chrome.runtime.sendMessage, if any, and whether the overlay was cleaned
up. -/
structure MouseUpOutcome where
  message : Option CaptureAreaMessage
  cleanedUp : Bool
deriving DecidableEq

/-- Embedding of the mouseup handler of the main overlay
(content_script.js lines 72-113): guarded by isDragging; computes the
selection rectangle from the drag start and end points; sends the
captureArea message with every coordinate multiplied by the device pixel
ratio when width and height are both positive; otherwise sends nothing
and cleans up. -/
def contentScriptMouseUp (isDragging : Bool) (sx sy ex ey dpr : ℚ) :
    MouseUpOutcome :=
  if isDragging = false then ⟨none, false⟩
  else
    let x := min sx ex
    let y := min sy ey
    let w := |ex - sx|
    let h := |ey - sy|
    if 0 < w ∧ 0 < h then
      ⟨some ⟨"captureArea", ⟨x * dpr, y * dpr, w * dpr, h * dpr⟩, dpr⟩, true⟩
    else ⟨none, true⟩

/-- The areaSelected message the minimal overlay sends (content.js lines
49-58): message type, the bounding rectangle, and the device pixel
ratio. -/
structure AreaSelectedMessage where
  msgType : String
  rect : RectQ
  dpr : ℚ
deriving DecidableEq

/-- Embedding of onMouseUp of the minimal overlay (content.js lines
38-61): guarded by isSelecting and the existence of the selection box; it
sends the areaSelected message unconditionally, with no check on the
width or height of the selected rectangle. -/
def contentJsOnMouseUp (isSelecting hasBox : Bool) (rect : RectQ)
    (dpr : ℚ) : Option AreaSelectedMessage :=
  if isSelecting && hasBox then some ⟨"areaSelected", rect, dpr⟩ else none

/-- Notifications produced by the overlay-to-coordinator pipeline: the
overlay itself never creates a notification, and the background
captureArea handler runs (and may notify) only when a message was
actually sent. -/
def overlayPipelineNotifications (isDragging : Bool) (sx sy ex ey dpr : ℚ)
    (su : Except String Unit) (cap : Background.CaptureEnv)
    (snd : Background.SendEnv) : List Notification :=
  match (contentScriptMouseUp isDragging sx sy ex ey dpr).message with
  | none => []
  | some _ => (Background.captureAreaFlow su cap snd).notifications

end Overlay

namespace Offscreen

/-- The coords object of a cropAndCopy request as dynamically received by
the offscreen document: each field is present with a number value, or
absent / of a non-number type (embedded as none). -/
structure JsCoords where
  x : Option ℚ
  y : Option ℚ
  width : Option ℚ
  height : Option ℚ
deriving DecidableEq

/-- The distinct failure reasons of the offscreen document, one
constructor per throw or reject site of content.js lines 71-225.  The
source renders each as an error string (with the numeric or name/message
parts interpolated); the embedding keeps them as structured values
carrying the same data. -/
inductive WorkerError
  | invalidDataUrl
  | invalidCoords
  | invalidDimensions (w h : ℚ)
  | invalidDataUrlFormat
  | imageLoadFailed
  | invalidSourceDims (w h : ℤ)
  | drawFailed (n m : String)
  | toBlobFailed
  | clipboardFailed (n m : String)
  | unknownAction (a : String)
deriving DecidableEq

/-- The reply object the offscreen document passes to sendResponse. -/
structure OffscreenReply where
  success : Bool
  error : Option WorkerError
deriving DecidableEq

/-- Environment outcomes of the asynchronous platform calls inside
cropImage (content.js lines 145-225): whether the Image load fired onload
(with the decoded source dimensions) or onerror; whether ctx.drawImage
threw (name, message); and the blob handed to the toBlob callback (none
embeds a null blob, some s a blob of s bytes). -/
structure CropEnv where
  imgLoad : Option (ℕ × ℕ)
  drawErr : Option (String × String)
  toBlobSize : Option ℕ
deriving DecidableEq

/-- The successful result of cropImage: the canvas (output raster)
dimensions, the blob size, and whether the two soft warnings were logged
(source rectangle outside the image beyond the 5 pixel tolerance; empty
blob). -/
structure CropOk where
  canvasWidth : ℤ
  canvasHeight : ℤ
  blobSize : ℕ
  warnedBounds : Bool
  warnedEmptyBlob : Bool
deriving DecidableEq

/-- Embedding of cropImage (content.js lines 145-225): validates the
dataUrl format, waits for the image to load, rounds the requested width
and height to integers of at least 1 pixel for both the canvas size and
the drawImage source rectangle, logs (but does not fail on) a source
rectangle lying outside the image beyond a 5 pixel tolerance, draws, and
converts the canvas to a blob, resolving even for an empty blob. -/
def cropImage (dataUrl : String) (coords : RectQ) (env : CropEnv) :
    Except WorkerError CropOk :=
  if ¬ strStartsWith dataUrl "data:image/" then
    Except.error WorkerError.invalidDataUrlFormat
  else
    match env.imgLoad with
    | none => Except.error WorkerError.imageLoadFailed
    | some (imgW, imgH) =>
      let roundedWidth : ℤ := max 1 (jsRound coords.width)
      let roundedHeight : ℤ := max 1 (jsRound coords.height)
      let sx := jsRound coords.x
      let sy := jsRound coords.y
      let sWidth : ℤ := max 1 (jsRound coords.width)
      let sHeight : ℤ := max 1 (jsRound coords.height)
      let warned : Bool := decide (sx < 0) || decide (sy < 0) ||
        decide ((imgW : ℤ) + 5 < sx + sWidth) ||
        decide ((imgH : ℤ) + 5 < sy + sHeight)
      if sWidth ≤ 0 ∨ sHeight ≤ 0 then
        Except.error (WorkerError.invalidSourceDims sWidth sHeight)
      else
        match env.drawErr with
        | some (n, m) => Except.error (WorkerError.drawFailed n m)
        | none =>
          match env.toBlobSize with
          | none => Except.error WorkerError.toBlobFailed
          | some s =>
            Except.ok ⟨roundedWidth, roundedHeight, s, warned, decide (s = 0)⟩

/-- Validation of the coords object (content.js lines 88-91): all four
fields must be present with number values. -/
def validJsCoords : Option JsCoords → Option RectQ
  | some ⟨some x, some y, some w, some h⟩ => some ⟨x, y, w, h⟩
  | _ => none

/-- Observable effects of one cropAndCopy request: the sendResponse
argument (none when no response is sent), and whether the crop and the
clipboard write were attempted. -/
structure HandlerOutcome where
  reply : Option OffscreenReply
  cropAttempted : Bool
  clipboardAttempted : Bool
deriving DecidableEq

/-- Embedding of the cropAndCopy branch of the offscreen listener
(content.js lines 79-136): validates the dataUrl (absent, non-string or
wrong prefix), validates the coords fields, rejects non-positive
dimensions before any cropping, then crops, then writes the clipboard,
converting every thrown error into a structured failure reply. -/
def cropAndCopy (dataUrl : Option String) (coords : Option JsCoords)
    (env : CropEnv) (clipboard : Option (String × String)) :
    HandlerOutcome :=
  match dataUrl with
  | none => ⟨some ⟨false, some WorkerError.invalidDataUrl⟩, false, false⟩
  | some du =>
    if ¬ strStartsWith du "data:image/" then
      ⟨some ⟨false, some WorkerError.invalidDataUrl⟩, false, false⟩
    else
      match validJsCoords coords with
      | none => ⟨some ⟨false, some WorkerError.invalidCoords⟩, false, false⟩
      | some r =>
        if r.width ≤ 0 ∨ r.height ≤ 0 then
          ⟨some ⟨false, some (WorkerError.invalidDimensions r.width r.height)⟩,
            false, false⟩
        else
          match cropImage du r env with
          | Except.error e => ⟨some ⟨false, some e⟩, true, false⟩
          | Except.ok _ =>
            match clipboard with
            | some (n, m) =>
              ⟨some ⟨false, some (WorkerError.clipboardFailed n m)⟩,
                true, true⟩
            | none => ⟨some ⟨true, none⟩, true, true⟩

/-- A message as received by the offscreen listener: its target field, its
action, and the cropAndCopy payload. -/
structure OffscreenRequest where
  target : Option String
  action : String
  dataUrl : Option String
  coords : Option JsCoords
deriving DecidableEq

/-- Embedding of the offscreen onMessage listener dispatch (content.js
lines 71-141): a message whose target is not the string offscreen is
ignored with no response at all; a cropAndCopy action runs the handler; any
other action is answered with a failure reply naming the unknown
action. -/
def offscreenOnMessage (req : OffscreenRequest) (env : CropEnv)
    (clipboard : Option (String × String)) : HandlerOutcome :=
  if req.target ≠ some "offscreen" then ⟨none, false, false⟩
  else if req.action = "cropAndCopy" then
    cropAndCopy req.dataUrl req.coords env clipboard
  else
    ⟨some ⟨false, some (WorkerError.unknownAction req.action)⟩, false, false⟩

end Offscreen

namespace OffscreenSetup

/-!
Small-step interleaving model of two concurrent calls to
setupOffscreenDocumentForClipboard (unnamed background file, v1 lines
34-72), together with the shared module state creatingOffscreenPromise
(line 5) and the chrome.offscreen platform.  Each program-counter value
is one region of code between two suspension points of the source; the
scheduler interleaves the two callers and the platform (which resolves
the pending createDocument promise) arbitrarily.  The platform rejects a
createDocument promise when an offscreen document already exists at
resolution time, and otherwise resolves it, bringing the document into
existence.
-/

/-- The two concurrent callers of setupOffscreenDocumentForClipboard. -/
inductive Caller
  | A
  | B
deriving DecidableEq

/-- Status of one createDocument promise. -/
inductive PromStatus
  | pending
  | resolvedOk
  | rejected
deriving DecidableEq

/-- Program counter of one caller inside
setupOffscreenDocumentForClipboard (v1 lines 34-72).
hasDocCheck: the await hasOffscreenDocument() inside
closeOffscreenDocument (line 22); closeDoc: the await
chrome.offscreen.closeDocument() (line 25, errors swallowed);
inflightCheck: the synchronous block from the creatingOffscreenPromise
test (line 43) through either the await of the foreign promise or the
createDocument call and assignment (lines 54-58); awaitOther: awaiting a
promise created by the other caller (line 45), returning on resolution
and rethrowing on rejection; awaitOwn: awaiting the own creation (line
61); finallyReset: the finally block clearing creatingOffscreenPromise
(lines 67-71); ret: the call has completed, recording whether it threw
and whether an offscreen document existed at that moment. -/
inductive PC
  | hasDocCheck
  | closeDoc
  | inflightCheck
  | awaitOther (p : ℕ)
  | awaitOwn (p : ℕ)
  | finallyReset (p : ℕ) (ok : Bool)
  | ret (threw : Bool) (docAtRet : Bool)
deriving DecidableEq

/-- Global configuration: whether an offscreen document exists, the value
of the shared creatingOffscreenPromise variable (the index of the promise
it holds), the history of createDocument calls (creator and status, in
creation order), and the two program counters. -/
structure Config where
  doc : Bool
  creating : Option ℕ
  promises : List (Caller × PromStatus)
  pcA : PC
  pcB : PC
deriving DecidableEq

/-- Program counter of a given caller. -/
def pcOf (c : Config) : Caller → PC
  | Caller.A => c.pcA
  | Caller.B => c.pcB

/-- Replace the program counter of a given caller. -/
def setPc (c : Config) : Caller → PC → Config
  | Caller.A, pc => { c with pcA := pc }
  | Caller.B, pc => { c with pcB := pc }

/-- Status of promise p, if it exists. -/
def statusOf (c : Config) (p : ℕ) : Option PromStatus :=
  (c.promises.get? p).map Prod.snd

/-- Set the status of promise p, keeping its creator. -/
def resolveAt (l : List (Caller × PromStatus)) (p : ℕ)
    (st : PromStatus) : List (Caller × PromStatus) :=
  match l.get? p with
  | some (x, _) => l.set p (x, st)
  | none => l

/-- One step of caller x, following the control flow of v1 lines 34-72.
A caller whose awaited promise is still pending, or whose call has
returned, does not move. -/
def stepCaller (x : Caller) (c : Config) : Config :=
  match pcOf c x with
  | PC.hasDocCheck =>
    if c.doc then setPc c x PC.closeDoc else setPc c x PC.inflightCheck
  | PC.closeDoc => setPc { c with doc := false } x PC.inflightCheck
  | PC.inflightCheck =>
    match c.creating with
    | some p => setPc c x (PC.awaitOther p)
    | none =>
      let p := c.promises.length
      let c2 : Config :=
        { c with
          creating := some p
          promises := c.promises ++ [(x, PromStatus.pending)] }
      setPc c2 x (PC.awaitOwn p)
  | PC.awaitOther p =>
    match statusOf c p with
    | some PromStatus.resolvedOk => setPc c x (PC.ret false c.doc)
    | some PromStatus.rejected => setPc c x (PC.ret true c.doc)
    | _ => c
  | PC.awaitOwn p =>
    match statusOf c p with
    | some PromStatus.resolvedOk => setPc c x (PC.finallyReset p true)
    | some PromStatus.rejected => setPc c x (PC.finallyReset p false)
    | _ => c
  | PC.finallyReset _ ok =>
    setPc { c with creating := none } x (PC.ret (!ok) c.doc)
  | PC.ret _ _ => c

/-- One step of the platform: settle the pending createDocument promise,
rejecting it when an offscreen document already exists and resolving it
(and materialising the document) otherwise. -/
def stepEnv (c : Config) : Config :=
  match c.creating with
  | some p =>
    match statusOf c p with
    | some PromStatus.pending =>
      if c.doc then
        { c with promises := resolveAt c.promises p PromStatus.rejected }
      else
        { c with doc := true,
                 promises := resolveAt c.promises p PromStatus.resolvedOk }
    | _ => c
  | none => c

/-- A scheduling agent: one of the two callers, or the platform. -/
inductive Agent
  | caller (x : Caller)
  | env
deriving DecidableEq

/-- One interleaving step. -/
def step : Agent → Config → Config
  | Agent.caller x, c => stepCaller x c
  | Agent.env, c => stepEnv c

/-- Run a schedule (a list of agent choices) from a configuration. -/
def run : List Agent → Config → Config
  | [], c => c
  | ag :: tr, c => run tr (step ag c)

/-- Initial configuration: both callers about to execute their first
suspension point, no creation in flight, no createDocument call made yet;
the offscreen document may or may not pre-exist. -/
def init (d0 : Bool) : Config :=
  ⟨d0, none, [], PC.hasDocCheck, PC.hasDocCheck⟩

/-- The three scheduling agents. -/
def agents : List Agent :=
  [Agent.caller Caller.A, Agent.caller Caller.B, Agent.env]

/-- Whether a program counter is a completed call. -/
def isRet : PC → Bool
  | PC.ret _ _ => true
  | _ => false

/-- Whether a creation is in flight: creatingOffscreenPromise holds a
promise that is still pending. -/
def inflightPending (c : Config) : Bool :=
  match c.creating with
  | some p => statusOf c p = some PromStatus.pending
  | none => false

/-- Whether a schedule involves only caller A and the platform (a solo,
non-concurrent operation). -/
def soloA (tr : List Agent) : Bool :=
  tr.all (fun ag => ag ≠ Agent.caller Caller.B)

/-- The two agents of a solo (non-concurrent) operation. -/
def soloAgents : List Agent := [Agent.caller Caller.A, Agent.env]

set_option maxHeartbeats 2000000 in
/-- The set of configurations reachable from the two initial
configurations under arbitrary interleaving (computed as the finite
closure of init under step; closure and membership of the initial
configurations are proved below). -/
def reach : List Config := [
    ⟨false, none, [], .hasDocCheck, .hasDocCheck⟩,
    ⟨true, none, [], .hasDocCheck, .hasDocCheck⟩,
    ⟨false, none, [], .inflightCheck, .hasDocCheck⟩,
    ⟨false, none, [], .hasDocCheck, .inflightCheck⟩,
    ⟨true, none, [], .closeDoc, .hasDocCheck⟩,
    ⟨true, none, [], .hasDocCheck, .closeDoc⟩,
    ⟨false, (some 0), [(.A, .pending)], (.awaitOwn 0), .hasDocCheck⟩,
    ⟨false, none, [], .inflightCheck, .inflightCheck⟩,
    ⟨false, (some 0), [(.B, .pending)], .hasDocCheck, (.awaitOwn 0)⟩,
    ⟨true, none, [], .closeDoc, .closeDoc⟩,
    ⟨false, (some 0), [(.A, .pending)], (.awaitOwn 0), .inflightCheck⟩,
    ⟨true, (some 0), [(.A, .resolvedOk)], (.awaitOwn 0), .hasDocCheck⟩,
    ⟨false, (some 0), [(.B, .pending)], .inflightCheck, (.awaitOwn 0)⟩,
    ⟨true, (some 0), [(.B, .resolvedOk)], .hasDocCheck, (.awaitOwn 0)⟩,
    ⟨false, none, [], .inflightCheck, .closeDoc⟩,
    ⟨false, none, [], .closeDoc, .inflightCheck⟩,
    ⟨false, (some 0), [(.A, .pending)], (.awaitOwn 0), (.awaitOther 0)⟩,
    ⟨true, (some 0), [(.A, .resolvedOk)], (.awaitOwn 0), .inflightCheck⟩,
    ⟨true, (some 0), [(.A, .resolvedOk)], (.finallyReset 0 true), .hasDocCheck⟩,
    ⟨true, (some 0), [(.A, .resolvedOk)], (.awaitOwn 0), .closeDoc⟩,
    ⟨false, (some 0), [(.B, .pending)], (.awaitOther 0), (.awaitOwn 0)⟩,
    ⟨true, (some 0), [(.B, .resolvedOk)], .inflightCheck, (.awaitOwn 0)⟩,
    ⟨true, (some 0), [(.B, .resolvedOk)], .closeDoc, (.awaitOwn 0)⟩,
    ⟨true, (some 0), [(.B, .resolvedOk)], .hasDocCheck, (.finallyReset 0 true)⟩,
    ⟨false, (some 0), [(.A, .pending)], (.awaitOwn 0), .closeDoc⟩,
    ⟨false, (some 0), [(.B, .pending)], .closeDoc, (.awaitOwn 0)⟩,
    ⟨true, (some 0), [(.A, .resolvedOk)], (.awaitOwn 0), (.awaitOther 0)⟩,
    ⟨true, (some 0), [(.A, .resolvedOk)], (.finallyReset 0 true), .inflightCheck⟩,
    ⟨true, none, [(.A, .resolvedOk)], (.ret false true), .hasDocCheck⟩,
    ⟨true, (some 0), [(.A, .resolvedOk)], (.finallyReset 0 true), .closeDoc⟩,
    ⟨false, (some 0), [(.A, .resolvedOk)], (.awaitOwn 0), .inflightCheck⟩,
    ⟨true, (some 0), [(.B, .resolvedOk)], (.awaitOther 0), (.awaitOwn 0)⟩,
    ⟨true, (some 0), [(.B, .resolvedOk)], .inflightCheck, (.finallyReset 0 true)⟩,
    ⟨false, (some 0), [(.B, .resolvedOk)], .inflightCheck, (.awaitOwn 0)⟩,
    ⟨true, (some 0), [(.B, .resolvedOk)], .closeDoc, (.finallyReset 0 true)⟩,
    ⟨true, none, [(.B, .resolvedOk)], .hasDocCheck, (.ret false true)⟩,
    ⟨true, (some 0), [(.A, .resolvedOk)], (.finallyReset 0 true), (.awaitOther 0)⟩,
    ⟨true, (some 0), [(.A, .resolvedOk)], (.awaitOwn 0), (.ret false true)⟩,
    ⟨true, none, [(.A, .resolvedOk)], (.ret false true), .inflightCheck⟩,
    ⟨true, none, [(.A, .resolvedOk)], (.ret false true), .closeDoc⟩,
    ⟨false, (some 0), [(.A, .resolvedOk)], (.finallyReset 0 true), .inflightCheck⟩,
    ⟨false, (some 0), [(.A, .resolvedOk)], (.awaitOwn 0), (.awaitOther 0)⟩,
    ⟨true, (some 0), [(.B, .resolvedOk)], (.ret false true), (.awaitOwn 0)⟩,
    ⟨true, (some 0), [(.B, .resolvedOk)], (.awaitOther 0), (.finallyReset 0 true)⟩,
    ⟨true, none, [(.B, .resolvedOk)], .inflightCheck, (.ret false true)⟩,
    ⟨false, (some 0), [(.B, .resolvedOk)], (.awaitOther 0), (.awaitOwn 0)⟩,
    ⟨false, (some 0), [(.B, .resolvedOk)], .inflightCheck, (.finallyReset 0 true)⟩,
    ⟨true, none, [(.B, .resolvedOk)], .closeDoc, (.ret false true)⟩,
    ⟨true, none, [(.A, .resolvedOk)], (.ret false true), (.awaitOther 0)⟩,
    ⟨true, (some 0), [(.A, .resolvedOk)], (.finallyReset 0 true), (.ret false true)⟩,
    ⟨true, (some 1), [(.A, .resolvedOk), (.B, .pending)], (.ret false true), (.awaitOwn 1)⟩,
    ⟨false, none, [(.A, .resolvedOk)], (.ret false true), .inflightCheck⟩,
    ⟨false, none, [(.A, .resolvedOk)], (.ret false false), .inflightCheck⟩,
    ⟨false, (some 0), [(.A, .resolvedOk)], (.finallyReset 0 true), (.awaitOther 0)⟩,
    ⟨false, (some 0), [(.A, .resolvedOk)], (.awaitOwn 0), (.ret false false)⟩,
    ⟨true, (some 0), [(.B, .resolvedOk)], (.ret false true), (.finallyReset 0 true)⟩,
    ⟨true, none, [(.B, .resolvedOk)], (.awaitOther 0), (.ret false true)⟩,
    ⟨true, (some 1), [(.B, .resolvedOk), (.A, .pending)], (.awaitOwn 1), (.ret false true)⟩,
    ⟨false, (some 0), [(.B, .resolvedOk)], (.ret false false), (.awaitOwn 0)⟩,
    ⟨false, (some 0), [(.B, .resolvedOk)], (.awaitOther 0), (.finallyReset 0 true)⟩,
    ⟨false, none, [(.B, .resolvedOk)], .inflightCheck, (.ret false false)⟩,
    ⟨false, none, [(.B, .resolvedOk)], .inflightCheck, (.ret false true)⟩,
    ⟨true, none, [(.A, .resolvedOk)], (.ret false true), (.ret false true)⟩,
    ⟨true, (some 1), [(.A, .resolvedOk), (.B, .rejected)], (.ret false true), (.awaitOwn 1)⟩,
    ⟨false, (some 1), [(.A, .resolvedOk), (.B, .pending)], (.ret false true), (.awaitOwn 1)⟩,
    ⟨false, (some 1), [(.A, .resolvedOk), (.B, .pending)], (.ret false false), (.awaitOwn 1)⟩,
    ⟨false, none, [(.A, .resolvedOk)], (.ret false false), (.awaitOther 0)⟩,
    ⟨false, (some 0), [(.A, .resolvedOk)], (.finallyReset 0 true), (.ret false false)⟩,
    ⟨true, none, [(.B, .resolvedOk)], (.ret false true), (.ret false true)⟩,
    ⟨true, (some 1), [(.B, .resolvedOk), (.A, .rejected)], (.awaitOwn 1), (.ret false true)⟩,
    ⟨false, (some 0), [(.B, .resolvedOk)], (.ret false false), (.finallyReset 0 true)⟩,
    ⟨false, none, [(.B, .resolvedOk)], (.awaitOther 0), (.ret false false)⟩,
    ⟨false, (some 1), [(.B, .resolvedOk), (.A, .pending)], (.awaitOwn 1), (.ret false false)⟩,
    ⟨false, (some 1), [(.B, .resolvedOk), (.A, .pending)], (.awaitOwn 1), (.ret false true)⟩,
    ⟨true, (some 1), [(.A, .resolvedOk), (.B, .rejected)], (.ret false true), (.finallyReset 1 false)⟩,
    ⟨true, (some 1), [(.A, .resolvedOk), (.B, .resolvedOk)], (.ret false true), (.awaitOwn 1)⟩,
    ⟨true, (some 1), [(.A, .resolvedOk), (.B, .resolvedOk)], (.ret false false), (.awaitOwn 1)⟩,
    ⟨false, none, [(.A, .resolvedOk)], (.ret false false), (.ret false false)⟩,
    ⟨true, (some 1), [(.B, .resolvedOk), (.A, .rejected)], (.finallyReset 1 false), (.ret false true)⟩,
    ⟨false, none, [(.B, .resolvedOk)], (.ret false false), (.ret false false)⟩,
    ⟨true, (some 1), [(.B, .resolvedOk), (.A, .resolvedOk)], (.awaitOwn 1), (.ret false false)⟩,
    ⟨true, (some 1), [(.B, .resolvedOk), (.A, .resolvedOk)], (.awaitOwn 1), (.ret false true)⟩,
    ⟨true, none, [(.A, .resolvedOk), (.B, .rejected)], (.ret false true), (.ret true true)⟩,
    ⟨true, (some 1), [(.A, .resolvedOk), (.B, .resolvedOk)], (.ret false true), (.finallyReset 1 true)⟩,
    ⟨true, (some 1), [(.A, .resolvedOk), (.B, .resolvedOk)], (.ret false false), (.finallyReset 1 true)⟩,
    ⟨true, none, [(.B, .resolvedOk), (.A, .rejected)], (.ret true true), (.ret false true)⟩,
    ⟨true, (some 1), [(.B, .resolvedOk), (.A, .resolvedOk)], (.finallyReset 1 true), (.ret false false)⟩,
    ⟨true, (some 1), [(.B, .resolvedOk), (.A, .resolvedOk)], (.finallyReset 1 true), (.ret false true)⟩,
    ⟨true, none, [(.A, .resolvedOk), (.B, .resolvedOk)], (.ret false true), (.ret false true)⟩,
    ⟨true, none, [(.A, .resolvedOk), (.B, .resolvedOk)], (.ret false false), (.ret false true)⟩,
    ⟨true, none, [(.B, .resolvedOk), (.A, .resolvedOk)], (.ret false true), (.ret false false)⟩,
    ⟨true, none, [(.B, .resolvedOk), (.A, .resolvedOk)], (.ret false true), (.ret false true)⟩]

/-- The configurations reachable after caller B executes its
creatingOffscreenPromise test while a creation by A is in flight: the
region the system stays in from that moment on (closure proved below). -/
def safeSet : List Config := [
    ⟨false, (some 0), [(.A, .pending)], (.awaitOwn 0), (.awaitOther 0)⟩,
    ⟨true, (some 0), [(.A, .resolvedOk)], (.awaitOwn 0), (.awaitOther 0)⟩,
    ⟨true, (some 0), [(.A, .resolvedOk)], (.finallyReset 0 true), (.awaitOther 0)⟩,
    ⟨true, (some 0), [(.A, .resolvedOk)], (.awaitOwn 0), (.ret false true)⟩,
    ⟨true, none, [(.A, .resolvedOk)], (.ret false true), (.awaitOther 0)⟩,
    ⟨true, (some 0), [(.A, .resolvedOk)], (.finallyReset 0 true), (.ret false true)⟩,
    ⟨true, none, [(.A, .resolvedOk)], (.ret false true), (.ret false true)⟩]

/-- The configurations reachable when only caller A and the platform are
scheduled: a solo, non-concurrent operation (closure proved below). -/
def soloSet : List Config := [
    ⟨false, none, [], .hasDocCheck, .hasDocCheck⟩,
    ⟨true, none, [], .hasDocCheck, .hasDocCheck⟩,
    ⟨false, none, [], .inflightCheck, .hasDocCheck⟩,
    ⟨true, none, [], .closeDoc, .hasDocCheck⟩,
    ⟨false, (some 0), [(.A, .pending)], (.awaitOwn 0), .hasDocCheck⟩,
    ⟨true, (some 0), [(.A, .resolvedOk)], (.awaitOwn 0), .hasDocCheck⟩,
    ⟨true, (some 0), [(.A, .resolvedOk)], (.finallyReset 0 true), .hasDocCheck⟩,
    ⟨true, none, [(.A, .resolvedOk)], (.ret false true), .hasDocCheck⟩]

end OffscreenSetup

/-!
Theorems.  Each claim of the specification is settled by one theorem (with
a witness when the theorem has hypotheses, and a counterexample theorem
when the claim as stated fails on the code).
-/

namespace OffscreenSetup

/-- Every agent is one of the three scheduling agents. -/
theorem agent_mem (ag : Agent) : ag ∈ agents := by
  cases ag with
  | caller x => cases x <;> simp [agents]
  | env => simp [agents]

/-- The reachable set is closed under every step. -/
theorem reach_closed : ∀ c ∈ reach, ∀ ag ∈ agents, step ag c ∈ reach := by decide

/-- Both initial configurations are in the reachable set. -/
theorem init_reach (d0 : Bool) : init d0 ∈ reach := by cases d0 <;> decide

/-- Running any schedule from a reachable configuration stays in the
reachable set. -/
theorem run_reach : ∀ (tr : List Agent) (c : Config), c ∈ reach → run tr c ∈ reach := by
  intro tr
  induction tr with
  | nil => intro c hc; exact hc
  | cons ag tr2 ih =>
    intro c hc
    exact ih _ (reach_closed c hc ag (agent_mem ag))

/-- The safe region is closed under every step. -/
theorem safe_closed : ∀ c ∈ safeSet, ∀ ag ∈ agents, step ag c ∈ safeSet := by decide

/-- Running any schedule from the safe region stays in the safe region. -/
theorem run_safe : ∀ (tr : List Agent) (c : Config), c ∈ safeSet → run tr c ∈ safeSet := by
  intro tr
  induction tr with
  | nil => intro c hc; exact hc
  | cons ag tr2 ih =>
    intro c hc
    exact ih _ (safe_closed c hc ag (agent_mem ag))

/-- From any reachable configuration in which caller B is about to test
creatingOffscreenPromise while a creation is in flight, the step of B
enters the safe region. -/
theorem enter_safe : ∀ c ∈ reach, c.pcB = PC.inflightCheck → inflightPending c = true →
    step (Agent.caller Caller.B) c ∈ safeSet := by decide

/-- In the safe region, once both callers have completed, exactly one
createDocument call was ever made and both callers returned normally with
an offscreen document in existence. -/
theorem safe_final : ∀ c ∈ safeSet, isRet c.pcA = true → isRet c.pcB = true →
    c.promises.length = 1 ∧ c.pcA = PC.ret false true ∧ c.pcB = PC.ret false true := by decide

/-- A caller at the creatingOffscreenPromise test while the variable holds
a promise moves to awaiting that same promise, making no createDocument
call of its own. -/
theorem stepB_inflight (c : Config) (p : ℕ) (hpc : c.pcB = PC.inflightCheck)
    (hcr : c.creating = some p) :
    (step (Agent.caller Caller.B) c).pcB = PC.awaitOther p ∧
    (step (Agent.caller Caller.B) c).promises = c.promises := by
  simp [step, stepCaller, pcOf, hpc, hcr, setPc]

end OffscreenSetup

namespace OffscreenSetup

/-- C1: for every pair of concurrent calls to
setupOffscreenDocumentForClipboard, whenever the second caller (B)
executes the creatingOffscreenPromise test while a Worker creation is in
flight, B awaits that same in-flight creation rather than starting a
duplicate, and in every completed schedule exactly one createDocument
call was ever made and both callers return normally with the offscreen
document in existence. -/
theorem setup_concurrent_single_creation
    (d0 : Bool) (pre post : List Agent) (p : ℕ)
    (hpc : (run pre (init d0)).pcB = PC.inflightCheck)
    (hcr : (run pre (init d0)).creating = some p)
    (hpend : statusOf (run pre (init d0)) p = some PromStatus.pending)
    (hA : isRet (run post (step (Agent.caller Caller.B) (run pre (init d0)))).pcA = true)
    (hB : isRet (run post (step (Agent.caller Caller.B) (run pre (init d0)))).pcB = true) :
    (step (Agent.caller Caller.B) (run pre (init d0))).pcB = PC.awaitOther p ∧
    (run post (step (Agent.caller Caller.B) (run pre (init d0)))).promises.length = 1 ∧
    (run post (step (Agent.caller Caller.B) (run pre (init d0)))).pcA = PC.ret false true ∧
    (run post (step (Agent.caller Caller.B) (run pre (init d0)))).pcB = PC.ret false true := by
  have hreach : run pre (init d0) ∈ reach := run_reach pre _ (init_reach d0)
  have hip : inflightPending (run pre (init d0)) = true := by
    simp [inflightPending, hcr, hpend]
  have hsafe0 : step (Agent.caller Caller.B) (run pre (init d0)) ∈ safeSet :=
    enter_safe _ hreach hpc hip
  have hsafe : run post (step (Agent.caller Caller.B) (run pre (init d0))) ∈ safeSet :=
    run_safe post _ hsafe0
  have hfin := safe_final _ hsafe hA hB
  exact ⟨(stepB_inflight _ p hpc hcr).1, hfin.1, hfin.2.1, hfin.2.2⟩

/-- Witness for C1: a concrete schedule in which A starts the creation,
B tests creatingOffscreenPromise while it is pending, the platform
resolves, and both callers complete. -/
theorem setup_concurrent_single_creation_witness :
    ((run [Agent.caller Caller.A, Agent.caller Caller.A, Agent.caller Caller.B]
        (init false)).pcB = PC.inflightCheck ∧
     (run [Agent.caller Caller.A, Agent.caller Caller.A, Agent.caller Caller.B]
        (init false)).creating = some 0 ∧
     statusOf (run [Agent.caller Caller.A, Agent.caller Caller.A, Agent.caller Caller.B]
        (init false)) 0 = some PromStatus.pending ∧
     isRet (run [Agent.env, Agent.caller Caller.A, Agent.caller Caller.A, Agent.caller Caller.B]
        (step (Agent.caller Caller.B)
          (run [Agent.caller Caller.A, Agent.caller Caller.A, Agent.caller Caller.B]
            (init false)))).pcA = true ∧
     isRet (run [Agent.env, Agent.caller Caller.A, Agent.caller Caller.A, Agent.caller Caller.B]
        (step (Agent.caller Caller.B)
          (run [Agent.caller Caller.A, Agent.caller Caller.A, Agent.caller Caller.B]
            (init false)))).pcB = true) ∧
    ((step (Agent.caller Caller.B)
        (run [Agent.caller Caller.A, Agent.caller Caller.A, Agent.caller Caller.B]
          (init false))).pcB = PC.awaitOther 0 ∧
     (run [Agent.env, Agent.caller Caller.A, Agent.caller Caller.A, Agent.caller Caller.B]
        (step (Agent.caller Caller.B)
          (run [Agent.caller Caller.A, Agent.caller Caller.A, Agent.caller Caller.B]
            (init false)))).promises.length = 1 ∧
     (run [Agent.env, Agent.caller Caller.A, Agent.caller Caller.A, Agent.caller Caller.B]
        (step (Agent.caller Caller.B)
          (run [Agent.caller Caller.A, Agent.caller Caller.A, Agent.caller Caller.B]
            (init false)))).pcA = PC.ret false true ∧
     (run [Agent.env, Agent.caller Caller.A, Agent.caller Caller.A, Agent.caller Caller.B]
        (step (Agent.caller Caller.B)
          (run [Agent.caller Caller.A, Agent.caller Caller.A, Agent.caller Caller.B]
            (init false)))).pcB = PC.ret false true) :=
  ⟨⟨by decide, by decide, by decide, by decide, by decide⟩,
   setup_concurrent_single_creation false
     [Agent.caller Caller.A, Agent.caller Caller.A, Agent.caller Caller.B]
     [Agent.env, Agent.caller Caller.A, Agent.caller Caller.A, Agent.caller Caller.B]
     0 (by decide) (by decide) (by decide) (by decide) (by decide)⟩

/-- C2 counterexample: a concrete concurrent schedule in which the call
made by B completes normally, observing a ready Worker, while the only
createDocument call in the whole history was made by A: the second
operation reused the Worker created by the concurrent first operation
instead of closing it and creating a fresh one. -/
theorem setup_reuses_concurrent_worker :
    run [Agent.caller Caller.A, Agent.caller Caller.A, Agent.caller Caller.B,
         Agent.caller Caller.B, Agent.env, Agent.caller Caller.A,
         Agent.caller Caller.A, Agent.caller Caller.B] (init false) =
      ⟨true, none, [(Caller.A, PromStatus.resolvedOk)],
        PC.ret false true, PC.ret false true⟩ := by decide

/-- C2 (amended): a solo, non-concurrent operation always closes any
pre-existing Worker and creates exactly one fresh Worker (the history
ends as a single successful creation by the caller itself); but when a
creation by the other caller is in flight at the creatingOffscreenPromise
test, the caller awaits and reuses that concurrently created Worker,
making no createDocument call of its own. -/
theorem setup_close_fresh_or_reuse :
    (∀ (d0 : Bool) (tr : List Agent), soloA tr = true →
        isRet (run tr (init d0)).pcA = true →
        (run tr (init d0)).promises = [(Caller.A, PromStatus.resolvedOk)] ∧
        (run tr (init d0)).pcA = PC.ret false true) ∧
    (∀ (d0 : Bool) (tr : List Agent) (p : ℕ),
        (run tr (init d0)).pcB = PC.inflightCheck →
        (run tr (init d0)).creating = some p →
        (step (Agent.caller Caller.B) (run tr (init d0))).promises =
          (run tr (init d0)).promises ∧
        (step (Agent.caller Caller.B) (run tr (init d0))).pcB = PC.awaitOther p) := by
  constructor
  · have solo_closed : ∀ c ∈ soloSet, ∀ ag ∈ soloAgents, step ag c ∈ soloSet := by decide
    have solo_final : ∀ c ∈ soloSet, isRet c.pcA = true →
        c.promises = [(Caller.A, PromStatus.resolvedOk)] ∧
        c.pcA = PC.ret false true := by decide
    have run_solo : ∀ (tr : List Agent) (c : Config), soloA tr = true → c ∈ soloSet →
        run tr c ∈ soloSet := by
      intro tr
      induction tr with
      | nil => intro c _ hc; exact hc
      | cons ag tr2 ih =>
        intro c hs hc
        have hs2 : soloA tr2 = true ∧ ag ≠ Agent.caller Caller.B := by
          constructor
          · simp [soloA] at hs ⊢
            exact fun a ha => hs.2 a ha
          · simp [soloA] at hs
            exact hs.1
        have hag : ag ∈ soloAgents := by
          cases ag with
          | caller x =>
            cases x with
            | A => simp [soloAgents]
            | B => exact absurd rfl hs2.2
          | env => simp [soloAgents]
        exact ih _ hs2.1 (solo_closed c hc ag hag)
    intro d0 tr hs hret
    have hm : run tr (init d0) ∈ soloSet := by
      apply run_solo tr _ hs
      cases d0 <;> decide
    exact solo_final _ hm hret
  · intro d0 tr p hpc hcr
    exact ⟨(stepB_inflight _ p hpc hcr).2, (stepB_inflight _ p hpc hcr).1⟩

/-- Witness for C2 (amended): the solo part at a schedule beginning with a
pre-existing document, and the reuse part at the configuration reached
just before B tests the in-flight promise. -/
theorem setup_close_fresh_or_reuse_witness :
    (soloA [Agent.caller Caller.A, Agent.caller Caller.A, Agent.caller Caller.A,
        Agent.env, Agent.caller Caller.A, Agent.caller Caller.A] = true ∧
     isRet (run [Agent.caller Caller.A, Agent.caller Caller.A, Agent.caller Caller.A,
        Agent.env, Agent.caller Caller.A, Agent.caller Caller.A] (init true)).pcA = true ∧
     (run [Agent.caller Caller.A, Agent.caller Caller.A, Agent.caller Caller.A,
        Agent.env, Agent.caller Caller.A, Agent.caller Caller.A] (init true)).promises =
        [(Caller.A, PromStatus.resolvedOk)] ∧
     (run [Agent.caller Caller.A, Agent.caller Caller.A, Agent.caller Caller.A,
        Agent.env, Agent.caller Caller.A, Agent.caller Caller.A] (init true)).pcA =
        PC.ret false true) ∧
    ((run [Agent.caller Caller.A, Agent.caller Caller.A, Agent.caller Caller.B]
        (init false)).pcB = PC.inflightCheck ∧
     (run [Agent.caller Caller.A, Agent.caller Caller.A, Agent.caller Caller.B]
        (init false)).creating = some 0 ∧
     (step (Agent.caller Caller.B)
        (run [Agent.caller Caller.A, Agent.caller Caller.A, Agent.caller Caller.B]
          (init false))).promises =
       (run [Agent.caller Caller.A, Agent.caller Caller.A, Agent.caller Caller.B]
          (init false)).promises ∧
     (step (Agent.caller Caller.B)
        (run [Agent.caller Caller.A, Agent.caller Caller.A, Agent.caller Caller.B]
          (init false))).pcB = PC.awaitOther 0) :=
  ⟨⟨by decide, by decide,
    (setup_close_fresh_or_reuse.1 true
      [Agent.caller Caller.A, Agent.caller Caller.A, Agent.caller Caller.A,
        Agent.env, Agent.caller Caller.A, Agent.caller Caller.A]
      (by decide) (by decide)).1,
    (setup_close_fresh_or_reuse.1 true
      [Agent.caller Caller.A, Agent.caller Caller.A, Agent.caller Caller.A,
        Agent.env, Agent.caller Caller.A, Agent.caller Caller.A]
      (by decide) (by decide)).2⟩,
   ⟨by decide, by decide,
    (setup_close_fresh_or_reuse.2 false
      [Agent.caller Caller.A, Agent.caller Caller.A, Agent.caller Caller.B]
      0 (by decide) (by decide)).1,
    (setup_close_fresh_or_reuse.2 false
      [Agent.caller Caller.A, Agent.caller Caller.A, Agent.caller Caller.B]
      0 (by decide) (by decide)).2⟩⟩

end OffscreenSetup

namespace Overlay

/-- C3 counterexample: the minimal overlay of content.js sends its
areaSelected cross-context message even for a selection rectangle of
width 0 and height 0 (a plain click); the zero-area gesture is not
discarded. -/
theorem contentJs_sends_zero_area_message :
    contentJsOnMouseUp true true ⟨3, 4, 0, 0⟩ 1 =
      some ⟨"areaSelected", ⟨3, 4, 0, 0⟩, 1⟩ := rfl

/-- C3 (amended): the main overlay of content_script.js sends no
cross-context message for a selected region with non-positive width or
height, the overlay is cleaned up, and no notification is shown anywhere
in the pipeline (the Coordinator notifies only on receipt of a
message). -/
theorem contentScript_zero_area_silent (sx sy ex ey dpr : ℚ)
    (hz : |ex - sx| ≤ 0 ∨ |ey - sy| ≤ 0) :
    (contentScriptMouseUp true sx sy ex ey dpr).message = none ∧
    (contentScriptMouseUp true sx sy ex ey dpr).cleanedUp = true ∧
    ∀ (su : Except String Unit) (cap : Background.CaptureEnv)
      (snd : Background.SendEnv),
      overlayPipelineNotifications true sx sy ex ey dpr su cap snd = [] := by
  have hcond : ¬ (¬ (ex - sx = 0) ∧ ¬ (ey - sy = 0)) := by
    rcases hz with h | h
    · exact fun hc => hc.1 (abs_nonpos_iff.mp h)
    · exact fun hc => hc.2 (abs_nonpos_iff.mp h)
  refine ⟨?_, ?_, ?_⟩
  · simp [contentScriptMouseUp, hcond]
  · simp [contentScriptMouseUp, hcond]
  · intro su cap snd
    simp [overlayPipelineNotifications, contentScriptMouseUp, hcond]

/-- Witness for C3 (amended): a degenerate drag from x equal 5 to x equal
5 (width 0) sends nothing, cleans up, and yields no notification for a
concrete environment. -/
theorem contentScript_zero_area_silent_witness :
    (|(5 : ℚ) - 5| ≤ 0 ∨ |(7 : ℚ) - 0| ≤ 0) ∧
    (contentScriptMouseUp true 5 0 5 7 2).message = none ∧
    (contentScriptMouseUp true 5 0 5 7 2).cleanedUp = true ∧
    overlayPipelineNotifications true 5 0 5 7 2 (Except.ok ())
      (Background.CaptureEnv.completed none (some "data:image/png"))
      (Background.SendEnv.completed none none) = [] :=
  ⟨Or.inl (by norm_num),
   (contentScript_zero_area_silent 5 0 5 7 2 (Or.inl (by norm_num))).1,
   (contentScript_zero_area_silent 5 0 5 7 2 (Or.inl (by norm_num))).2.1,
   (contentScript_zero_area_silent 5 0 5 7 2 (Or.inl (by norm_num))).2.2
     (Except.ok ())
     (Background.CaptureEnv.completed none (some "data:image/png"))
     (Background.SendEnv.completed none none)⟩

/-- C6: for every drag with positive width and height and every device
pixel ratio, the main overlay sends the captureArea message whose
coordinates are the page-coordinate region with each of x, y, width,
height multiplied by the device pixel ratio. -/
theorem region_scaled_by_dpr (sx sy ex ey dpr : ℚ)
    (hw : 0 < |ex - sx|) (hh : 0 < |ey - sy|) :
    (contentScriptMouseUp true sx sy ex ey dpr).message =
      some ⟨"captureArea",
        ⟨(min sx ex) * dpr, (min sy ey) * dpr,
         (|ex - sx|) * dpr, (|ey - sy|) * dpr⟩, dpr⟩ := by
  simp [contentScriptMouseUp, hw, hh]

/-- Witness for C6: the region with x 10, y 10, width 100, height 50 at
device pixel ratio 2 is sent as x 20, y 20, width 200, height 100. -/
theorem region_scaled_by_dpr_witness :
    (contentScriptMouseUp true 10 10 110 60 2).message =
      some ⟨"captureArea", ⟨20, 20, 200, 100⟩, 2⟩ := by
  rw [region_scaled_by_dpr 10 10 110 60 2 (by norm_num) (by norm_num)]
  norm_num

end Overlay

namespace Background

/-- C4 counterexample: the minimal areaSelected background variant runs a
fully successful operation (background removal and clipboard write both
succeed) yet produces zero OperationResult replies and zero
notifications, contradicting the exactly-one requirement. -/
theorem areaSelected_no_reply :
    areaSelectedListener "areaSelected" true true = ⟨[], [], true⟩ := rfl

/-- C4 (amended): every code path of the captureArea handler of the main
background script produces exactly one OperationResult reply and exactly
one notification; the minimal areaSelected variant instead produces no
reply and no notification on any path. -/
theorem captureArea_exactly_one_result :
    (∀ (su : Except String Unit) (cap : CaptureEnv) (snd : SendEnv),
      (captureAreaFlow su cap snd).responses.length = 1 ∧
      (captureAreaFlow su cap snd).notifications.length = 1) ∧
    (∀ (removeBgOk clipOk : Bool),
      (areaSelectedListener "areaSelected" removeBgOk clipOk).responses = [] ∧
      (areaSelectedListener "areaSelected" removeBgOk clipOk).notifications = []) := by
  constructor
  · intro su cap snd
    rcases su with e | u
    · exact ⟨rfl, rfl⟩
    rcases cap with m | ⟨lastE, du⟩
    · exact ⟨rfl, rfl⟩
    cases hb : (lastE.isSome || falsyStr du) with
    | true => simp [captureAreaFlow, hb, catchPath]
    | false =>
      rcases snd with m2 | ⟨lastE2, resp⟩
      · simp [captureAreaFlow, hb, catchPath]
      rcases lastE2 with _ | m3
      · rcases resp with _ | r
        · simp [captureAreaFlow, hb, failPath]
        rcases r with ⟨rs, rerr⟩
        cases rs
        · simp [captureAreaFlow, hb, failPath]
        · simp [captureAreaFlow, hb]
      · simp [captureAreaFlow, hb, catchPath]
  · intro removeBgOk clipOk
    cases removeBgOk <;> cases clipOk <;> exact ⟨rfl, rfl⟩

/-- C5 counterexample: a Worker reply with success false and the empty
error string is not propagated verbatim; the JavaScript truthiness test
replaces it with the generic processing-service message. -/
theorem empty_error_replaced_generic :
    captureAreaFlow (Except.ok ())
      (CaptureEnv.completed none (some "data:image/png"))
      (SendEnv.completed none (some ⟨false, some ""⟩)) =
      ⟨[⟨false, some "Unknown error from screenshot processing service."⟩],
       [⟨"Screenshot Failed",
         "Unknown error from screenshot processing service."⟩]⟩ := by decide

/-- C5 (amended): for every Worker reply with success false and a
non-empty error string e, the final OperationResult carries e verbatim
and the failure notification shows e verbatim. -/
theorem worker_error_propagated_verbatim (e du : String)
    (he : e ≠ "") (hdu : du ≠ "") :
    captureAreaFlow (Except.ok ())
      (CaptureEnv.completed none (some du))
      (SendEnv.completed none (some ⟨false, some e⟩)) =
      ⟨[⟨false, some e⟩], [⟨"Screenshot Failed", e⟩]⟩ := by
  simp [captureAreaFlow, falsyStr, hdu, failPath, jsOrDefault, he]

/-- Witness for C5 (amended): the reply with error string clipboard
denied is propagated verbatim. -/
theorem worker_error_propagated_verbatim_witness :
    "clipboard denied" ≠ "" ∧
    captureAreaFlow (Except.ok ())
      (CaptureEnv.completed none (some "data:image/png"))
      (SendEnv.completed none (some ⟨false, some "clipboard denied"⟩)) =
      ⟨[⟨false, some "clipboard denied"⟩],
       [⟨"Screenshot Failed", "clipboard denied"⟩]⟩ :=
  ⟨by decide,
   worker_error_propagated_verbatim "clipboard denied" "data:image/png"
     (by decide) (by decide)⟩

/-- C9: closing the Worker when no offscreen document exists is a no-op
(closeDocument is never called, no error escapes, the state is unchanged)
and a subsequent createDocument succeeds. -/
theorem close_nonexistent_noop (s : BgEnv) (h : s.doc = false) :
    closeOffscreenDocument s = ⟨s, false, false⟩ ∧
    (s.offscreenAvailable = true →
      createDocument (closeOffscreenDocument s).state = Except.ok ⟨true, true⟩) := by
  have h1 : closeOffscreenDocument s = ⟨s, false, false⟩ := by
    rcases s with ⟨av, d⟩
    cases av <;> simp_all [closeOffscreenDocument, hasOffscreenDocument]
  refine ⟨h1, fun hav => ?_⟩
  rw [h1]
  rcases s with ⟨av, d⟩
  simp_all [createDocument]

/-- Witness for C9: closing with no document present, the state is
unchanged, closeDocument is not called, and creation then succeeds. -/
theorem close_nonexistent_noop_witness :
    ((⟨true, false⟩ : BgEnv).doc = false) ∧
    closeOffscreenDocument ⟨true, false⟩ = ⟨⟨true, false⟩, false, false⟩ ∧
    createDocument (closeOffscreenDocument ⟨true, false⟩).state =
      Except.ok ⟨true, true⟩ :=
  ⟨rfl, (close_nonexistent_noop ⟨true, false⟩ rfl).1,
   (close_nonexistent_noop ⟨true, false⟩ rfl).2 rfl⟩

end Background

namespace Offscreen

/-- C7: for every cropAndCopy request whose coords object is missing, has
a non-numeric field, or has non-positive width or height, the Worker
replies with success false and a structured error, and never attempts the
crop (no clamping to proceed). -/
theorem invalid_coords_rejected (du : Option String) (c : Option JsCoords)
    (env : CropEnv) (clip : Option (String × String))
    (hbad : validJsCoords c = none ∨
      ∃ r, validJsCoords c = some r ∧ (r.width ≤ 0 ∨ r.height ≤ 0)) :
    (offscreenOnMessage ⟨some "offscreen", "cropAndCopy", du, c⟩ env clip).cropAttempted
        = false ∧
    ∃ e, (offscreenOnMessage ⟨some "offscreen", "cropAndCopy", du, c⟩ env clip).reply =
      some ⟨false, some e⟩ := by
  have hdisp : offscreenOnMessage ⟨some "offscreen", "cropAndCopy", du, c⟩ env clip =
      cropAndCopy du c env clip := by
    simp [offscreenOnMessage]
  rw [hdisp]
  rcases du with _ | du
  · exact ⟨rfl, WorkerError.invalidDataUrl, rfl⟩
  by_cases hs : strStartsWith du "data:image/" = true
  · rcases hbad with hnone | ⟨r, hr, hwh⟩
    · refine ⟨?_, WorkerError.invalidCoords, ?_⟩ <;>
        simp [cropAndCopy, hs, hnone]
    · refine ⟨?_, WorkerError.invalidDimensions r.width r.height, ?_⟩ <;>
        simp [cropAndCopy, hs, hr, hwh]
  · refine ⟨?_, WorkerError.invalidDataUrl, ?_⟩ <;>
      simp [cropAndCopy, hs]

/-- Witness for C7: a request with a negative width is rejected with a
failure reply and no crop attempt. -/
theorem invalid_coords_rejected_witness :
    (validJsCoords (some ⟨some 0, some 0, some (-5), some 3⟩) = none ∨
      ∃ r, validJsCoords (some ⟨some 0, some 0, some (-5), some 3⟩) = some r ∧
        (r.width ≤ 0 ∨ r.height ≤ 0)) ∧
    (offscreenOnMessage
        ⟨some "offscreen", "cropAndCopy", some "data:image/png",
          some ⟨some 0, some 0, some (-5), some 3⟩⟩
        ⟨none, none, none⟩ none).cropAttempted = false ∧
    ∃ e, (offscreenOnMessage
        ⟨some "offscreen", "cropAndCopy", some "data:image/png",
          some ⟨some 0, some 0, some (-5), some 3⟩⟩
        ⟨none, none, none⟩ none).reply = some ⟨false, some e⟩ :=
  ⟨Or.inr ⟨⟨0, 0, -5, 3⟩, rfl, Or.inl (by norm_num)⟩,
   (invalid_coords_rejected (some "data:image/png")
      (some ⟨some 0, some 0, some (-5), some 3⟩) ⟨none, none, none⟩ none
      (Or.inr ⟨⟨0, 0, -5, 3⟩, rfl, Or.inl (by norm_num)⟩)).1,
   (invalid_coords_rejected (some "data:image/png")
      (some ⟨some 0, some 0, some (-5), some 3⟩) ⟨none, none, none⟩ none
      (Or.inr ⟨⟨0, 0, -5, 3⟩, rfl, Or.inl (by norm_num)⟩)).2⟩

/-- C8 counterexample: a requested rectangle that extends beyond the
source image bounds but stays within the 5 pixel tolerance (22 beyond a
20 by 20 image) succeeds with no warning logged, contradicting the claim
that such a rectangle is logged as a warning. -/
theorem within_tolerance_not_warned :
    cropImage "data:image/png" ⟨0, 0, 22, 22⟩ ⟨some (20, 20), none, some 5⟩ =
      Except.ok ⟨22, 22, 5, false, false⟩ := by
  have hs : strStartsWith "data:image/png" "data:image/" = true := by decide
  have h22 : jsRound 22 = 22 := by norm_num [jsRound]
  have h0 : jsRound (0 : ℚ) = 0 := by norm_num [jsRound]
  simp [cropImage, hs, h22, h0]

/-- C8 (amended): for every crop with positive width and height on a
loaded image, the Worker rounds the requested width and height to
integers of at least 1 pixel and produces an output raster of exactly
that rounded size; a rectangle extending beyond the source image bounds
is never a failure, and the out-of-bounds warning is logged exactly when
the rounded x or y origin is negative or the rectangle extends past the
right or bottom edge of the image by more than the 5 pixel tolerance (so
a rectangle overrunning the right or bottom edge within the tolerance is
not logged at all). -/
theorem crop_rounds_and_warns (du : String) (coords : RectQ)
    (imgW imgH : ℕ) (s : ℕ)
    (hdu : strStartsWith du "data:image/" = true)
    (hw : 0 < coords.width) (hh : 0 < coords.height) :
    ∃ r, cropImage du coords ⟨some (imgW, imgH), none, some s⟩ = Except.ok r ∧
      r.canvasWidth = max 1 (jsRound coords.width) ∧
      r.canvasHeight = max 1 (jsRound coords.height) ∧
      (r.warnedBounds = true ↔
        (jsRound coords.x < 0 ∨ jsRound coords.y < 0 ∨
         (imgW : ℤ) + 5 < jsRound coords.x + max 1 (jsRound coords.width) ∨
         (imgH : ℤ) + 5 < jsRound coords.y + max 1 (jsRound coords.height))) := by
  have hns : ¬ (max 1 (jsRound coords.width) ≤ 0 ∨ max 1 (jsRound coords.height) ≤ 0) := by
    push_neg
    exact ⟨lt_of_lt_of_le zero_lt_one (le_max_left 1 _),
      lt_of_lt_of_le zero_lt_one (le_max_left 1 _)⟩
  refine ⟨⟨max 1 (jsRound coords.width), max 1 (jsRound coords.height), s,
      (decide (jsRound coords.x < 0) || decide (jsRound coords.y < 0) ||
       decide ((imgW : ℤ) + 5 < jsRound coords.x + max 1 (jsRound coords.width)) ||
       decide ((imgH : ℤ) + 5 < jsRound coords.y + max 1 (jsRound coords.height))),
      decide (s = 0)⟩, ?_, rfl, rfl, ?_⟩
  · simp [cropImage, hdu, hns]
  · simp [Bool.or_eq_true, decide_eq_true_eq, or_assoc]

/-- Witness for C8 (amended): the crop of the rectangle with x 0, y 0,
width 10, height 10 on a 20 by 20 image produces a 10 by 10 output
raster, with no warning. -/
theorem crop_rounds_and_warns_witness :
    (strStartsWith "data:image/png" "data:image/" = true ∧
      (0 : ℚ) < 10 ∧ (0 : ℚ) < 10) ∧
    (∃ r, cropImage "data:image/png" ⟨0, 0, 10, 10⟩
        ⟨some (20, 20), none, some 77⟩ = Except.ok r ∧
      r.canvasWidth = max 1 (jsRound 10) ∧
      r.canvasHeight = max 1 (jsRound 10) ∧
      (r.warnedBounds = true ↔
        (jsRound 0 < 0 ∨ jsRound 0 < 0 ∨
         (20 : ℤ) + 5 < jsRound 0 + max 1 (jsRound 10) ∨
         (20 : ℤ) + 5 < jsRound 0 + max 1 (jsRound 10)))) ∧
    cropImage "data:image/png" ⟨0, 0, 10, 10⟩ ⟨some (20, 20), none, some 77⟩ =
      Except.ok ⟨10, 10, 77, false, false⟩ :=
  ⟨⟨by decide, by norm_num, by norm_num⟩,
   crop_rounds_and_warns "data:image/png" ⟨0, 0, 10, 10⟩ 20 20 77
     (by decide) (by norm_num) (by norm_num),
   by
    have hs : strStartsWith "data:image/png" "data:image/" = true := by decide
    have h10 : jsRound 10 = 10 := by norm_num [jsRound]
    have h0 : jsRound (0 : ℚ) = 0 := by norm_num [jsRound]
    simp [cropImage, hs, h10, h0]⟩

/-- C10: a message whose target is not the string offscreen receives no
reply at all and triggers no processing; a message targeted at the
offscreen document whose action is not cropAndCopy receives a failure
reply naming the unknown action. -/
theorem listener_dispatch (req : OffscreenRequest) (env : CropEnv)
    (clip : Option (String × String)) :
    (req.target ≠ some "offscreen" →
      offscreenOnMessage req env clip = ⟨none, false, false⟩) ∧
    (req.target = some "offscreen" → req.action ≠ "cropAndCopy" →
      offscreenOnMessage req env clip =
        ⟨some ⟨false, some (WorkerError.unknownAction req.action)⟩,
          false, false⟩) := by
  constructor
  · intro ht
    simp [offscreenOnMessage, ht]
  · intro ht ha
    simp [offscreenOnMessage, ht, ha]

/-- Witness for C10: a message targeted elsewhere is silently ignored and
an unknown action gets a failure reply naming it. -/
theorem listener_dispatch_witness :
    offscreenOnMessage ⟨some "background", "cropAndCopy", none, none⟩
      ⟨none, none, none⟩ none = ⟨none, false, false⟩ ∧
    offscreenOnMessage ⟨some "offscreen", "resizeAndCopy", none, none⟩
      ⟨none, none, none⟩ none =
      ⟨some ⟨false, some (WorkerError.unknownAction "resizeAndCopy")⟩,
        false, false⟩ :=
  ⟨(listener_dispatch ⟨some "background", "cropAndCopy", none, none⟩
      ⟨none, none, none⟩ none).1 (by decide),
   (listener_dispatch ⟨some "offscreen", "resizeAndCopy", none, none⟩
      ⟨none, none, none⟩ none).2 rfl (by decide)⟩

end Offscreen
